import Mathlib

/-!
Shallow embedding of the Vant Swipe carousel core (src/src/swipe/Swipe.tsx).

The reactive state record of the component becomes an explicit structure,
the computed values become functions over that structure, and each handler
becomes a state transformer returning the new state together with the list
of change payloads emitted during its run.  Pixel quantities are rationals
(JavaScript numbers used for sizes, offsets and deltas), indices, counts
and paces are integers.  The JavaScript remainder operator on integers is
truncated division remainder, i.e. Int.tmod.

External collaborators (the touch tracker, timers, DOM measurement and the
rendering layer) are passed in as plain values: the touch handlers receive
the delta, absolute offset, direction flag and elapsed time that the touch
composable would expose, and the initializer receives the measured rect.
-/

namespace Swipe

/-- Modelled from the spec: the clamp helper named range, imported by the
component from ../utils which is not part of the sources under src/.  The
spec describes every use of it as clamping a value into a closed interval
bounded below and above. -/
def range {α : Type} [LinearOrder α] (num lo hi : α) : α :=
  min (max num lo) hi

/-- The configuration options read by the core logic: loop (wrap-around),
vertical (orientation), and the optional explicit width/height overrides. -/
structure SwipeProps where
  loop : Bool
  vertical : Bool
  width : Option ℚ
  height : Option ℚ

/-- The state record of the component (rect, width, height, offset, active,
swiping) plus the per-panel visual offsets that the source pushes into the
child components through their setOffset method. -/
structure SwipeState where
  rect : Option (ℚ × ℚ)
  width : ℚ
  height : ℚ
  offset : ℚ
  active : ℤ
  swiping : Bool
  childOffsets : ℤ → ℚ

/-- Computed value size: the state dimension selected by the orientation. -/
def size (p : SwipeProps) (s : SwipeState) : ℚ :=
  if p.vertical then s.height else s.width

/-- Computed value minOffset: container main-axis size minus the total track
size, or 0 before the first measurement. -/
def minOffset (p : SwipeProps) (count : ℤ) (s : SwipeState) : ℚ :=
  match s.rect with
  | some r => (if p.vertical then r.2 else r.1) - size p s * count
  | none => 0

/-- Computed value maxCount: the ceiling of the absolute minimal offset
divided by the panel size. -/
def maxCount (p : SwipeProps) (count : ℤ) (s : SwipeState) : ℤ :=
  ⌈|minOffset p count s| / size p s⌉

/-- Computed value trackSize: panel count times panel size. -/
def trackSize (p : SwipeProps) (count : ℤ) (s : SwipeState) : ℚ :=
  (count : ℚ) * size p s

/-- Computed value activeIndicator: (active + count) % count with the
JavaScript (truncated) remainder. -/
def activeIndicator (count : ℤ) (s : SwipeState) : ℤ :=
  Int.tmod (s.active + count) count

/-- getTargetActive from the source: a nonzero pace is added to the current
active index and clamped, into [-1, count] in loop mode and into
[0, maxCount] otherwise; a zero pace returns the current active index. -/
def getTargetActive (p : SwipeProps) (count : ℤ) (s : SwipeState)
    (pace : ℤ) : ℤ :=
  if pace ≠ 0 then
    if p.loop then range (s.active + pace) (-1) count
    else range (s.active + pace) 0 (maxCount p count s)
  else s.active

/-- getTargetOffset from the source: the base position of the target panel,
capped at the last reachable position in non-loop mode, subtracted from the
extra drag offset; in non-loop mode the result is clamped into
[minOffset, 0]. -/
def getTargetOffset (p : SwipeProps) (count : ℤ) (s : SwipeState)
    (targetActive : ℤ) (offset : ℚ) : ℚ :=
  let currentPosition := (targetActive : ℚ) * size p s
  let currentPosition :=
    if p.loop then currentPosition
    else min currentPosition (-(minOffset p count s))
  let targetOffset := offset - currentPosition
  if p.loop then targetOffset
  else range targetOffset (minOffset p count s) 0

/-- The argument record of move: a pace, an extra drag offset, and whether a
change notification may be emitted. -/
structure MoveArgs where
  pace : ℤ
  offset : ℚ
  emitChange : Bool

/-- A setOffset call on the child panel at the given index. -/
def setChildOffset (s : SwipeState) (i : ℤ) (v : ℚ) : SwipeState :=
  { s with childOffsets := fun j => if j = i then v else s.childOffsets j }

/-- move from the source: a no-op when at most one panel exists; otherwise
resolves the target active index and offset, repositions the first and last
panels in loop mode (both panels exist here since the early return has
already ruled out counts below 2), stores the new active index and offset,
and emits a change payload carrying the new activeIndicator exactly when
emission is enabled and the active index changed. -/
def move (p : SwipeProps) (count : ℤ) (s : SwipeState) (args : MoveArgs) :
    SwipeState × List ℤ :=
  if count ≤ 1 then (s, [])
  else
    let active := s.active
    let targetActive := getTargetActive p count s args.pace
    let targetOffset := getTargetOffset p count s targetActive args.offset
    let s1 :=
      if p.loop then
        let sa :=
          if targetOffset ≠ minOffset p count s then
            setChildOffset s 0
              (if targetOffset < minOffset p count s then trackSize p count s
               else 0)
          else s
        if targetOffset ≠ 0 then
          setChildOffset sa (count - 1)
            (if 0 < targetOffset then -trackSize p count s else 0)
        else sa
      else s
    let s2 := { s1 with active := targetActive, offset := targetOffset }
    if args.emitChange = true ∧ targetActive ≠ active then
      (s2, [activeIndicator count s2])
    else (s2, [])

/-- correctPosition from the source: marks the state as swiping, then moves
by plus or minus count panels when the active index has escaped below -1 or
at or above count. -/
def correctPosition (p : SwipeProps) (count : ℤ) (s : SwipeState) :
    SwipeState × List ℤ :=
  let s0 : SwipeState := { s with swiping := true }
  if s0.active ≤ -1 then move p count s0 ⟨count, 0, false⟩
  else if count ≤ s0.active then move p count s0 ⟨-count, 0, false⟩
  else (s0, [])

/-- onTouchMove from the source, with the touch composable data passed in:
while touchable and swiping, a drag in the configured orientation applies a
live move whose extra offset is the current delta. -/
def onTouchMove (p : SwipeProps) (count : ℤ) (s : SwipeState)
    (touchable correctDirection : Bool) (delta : ℚ) : SwipeState × List ℤ :=
  if touchable = true ∧ s.swiping = true then
    if correctDirection = true then move p count s ⟨0, delta, false⟩
    else (s, [])
  else (s, [])

/-- onTouchEnd from the source, with the touch composable data passed in:
when touchable and swiping, a fast or long drag in the configured
orientation commits a pace computed from the loop flag, the absolute touch
offset and the delta; otherwise a nonzero delta snaps back with a zero
pace.  The swiping flag is cleared at the end of the non-guarded path. -/
def onTouchEnd (p : SwipeProps) (count : ℤ) (s : SwipeState)
    (touchable correctDirection : Bool) (delta touchOffset elapsed : ℚ) :
    SwipeState × List ℤ :=
  if touchable = false ∨ s.swiping = false then (s, [])
  else
    let speed := delta / elapsed
    let shouldSwipe := |speed| > 1 / 4 ∨ |delta| > size p s / 2
    let r :=
      if shouldSwipe ∧ correctDirection = true then
        let pace : ℤ :=
          if p.loop then
            if 0 < touchOffset then (if 0 < delta then -1 else 1) else 0
          else
            -(if 0 < delta then ⌈delta / size p s⌉ else ⌊delta / size p s⌋)
        move p count s ⟨pace, 0, true⟩
      else if delta ≠ 0 then move p count s ⟨0, 0, false⟩
      else (s, [])
    ({ r.1 with swiping := false }, r.2)

/-- The target index resolution inside swipeTo: in loop mode an index equal
to count targets 0 when already at 0 and count otherwise; every other case
takes the JavaScript remainder of the index by the count. -/
def swipeToTarget (p : SwipeProps) (count active index : ℤ) : ℤ :=
  if p.loop = true ∧ index = count then (if active = 0 then 0 else index)
  else Int.tmod index count

/-- swipeTo from the source: correct the position, resolve the target index
from the corrected active index, clear the swiping flag (after the move
when an immediate jump is requested), and move by the difference with
change notification enabled.  The frame-boundary deferrals of the source
order these same steps sequentially. -/
def swipeTo (p : SwipeProps) (count : ℤ) (s : SwipeState)
    (index : ℤ) (immediate : Bool) : SwipeState × List ℤ :=
  let c := correctPosition p count s
  let s1 := c.1
  let t := swipeToTarget p count s1.active index
  if immediate = true then
    let r := move p count s1 ⟨t - s1.active, 0, true⟩
    ({ r.1 with swiping := false }, c.2 ++ r.2)
  else
    let s2 : SwipeState := { s1 with swiping := false }
    let r := move p count s2 ⟨t - s2.active, 0, true⟩
    (r.1, c.2 ++ r.2)

/-- The body of the source initializer after its DOM guard (the measured
rect is passed in as a value): the requested index is capped at count - 1
when panels exist, the rect and sizes are stored, swiping is set, the
offset is recomputed for the stored active index, and every panel visual
offset is reset to 0.  The autoplay timer calls are external. -/
def initState (p : SwipeProps) (count : ℤ) (s : SwipeState)
    (rect : ℚ × ℚ) (requested : ℤ) : SwipeState :=
  let active := if count ≠ 0 then min (count - 1) requested else requested
  let s1 : SwipeState := { s with
    rect := some rect
    swiping := true
    active := active
    width := p.width.getD rect.1
    height := p.height.getD rect.2 }
  { s1 with
    offset := getTargetOffset p count s1 active 0
    childOffsets := fun _ => 0 }

/-- A concrete loop-mode configuration used by concrete instances. -/
def pLoop : SwipeProps := ⟨true, false, none, none⟩

/-- A concrete non-loop configuration used by concrete instances. -/
def pFlat : SwipeProps := ⟨false, false, none, none⟩

/-- A concrete state: a 100 by 100 container with 100-pixel panels, at
panel 0, not swiping, all panel offsets 0. -/
def sBase : SwipeState := ⟨some (100, 100), 100, 100, 0, 0, false, fun _ => 0⟩

/-- A concrete state whose container (1000 pixels) is wider than its two
100-pixel panels, so that its minimal offset is positive. -/
def sWide : SwipeState :=
  ⟨some (1000, 1000), 100, 100, 0, 0, false, fun _ => 0⟩

/-- Abbreviation for the two clamp branches of getTargetActive, used to
state normal-form lemmas: the loop clamp into [-1, count] and the non-loop
clamp into [0, maxCount]. -/
def clampA (p : SwipeProps) (count : ℤ) (s : SwipeState) (x : ℤ) : ℤ :=
  if p.loop then min (max x (-1)) count
  else min (max x 0) (maxCount p count s)

theorem tmod_eq_emod_of_nonneg {a b : ℤ} (ha : 0 ≤ a) (hb : 0 ≤ b) :
    Int.tmod a b = a % b :=
  Int.tmod_eq_emod ha hb

theorem tmod_bounds_of_nonneg {a b : ℤ} (ha : 0 ≤ a) (hb : 0 < b) :
    0 ≤ Int.tmod a b ∧ Int.tmod a b < b := by
  rw [tmod_eq_emod_of_nonneg ha (le_of_lt hb)]
  exact ⟨Int.emod_nonneg a (by omega), Int.emod_lt_of_pos a hb⟩

theorem size_congr (p : SwipeProps) {s s' : SwipeState}
    (hw : s'.width = s.width) (hh : s'.height = s.height) :
    size p s' = size p s := by
  simp [size, hw, hh]

theorem minOffset_congr (p : SwipeProps) (count : ℤ) {s s' : SwipeState}
    (hr : s'.rect = s.rect) (hw : s'.width = s.width)
    (hh : s'.height = s.height) :
    minOffset p count s' = minOffset p count s := by
  simp [minOffset, hr, size_congr p hw hh]

theorem maxCount_congr (p : SwipeProps) (count : ℤ) {s s' : SwipeState}
    (hr : s'.rect = s.rect) (hw : s'.width = s.width)
    (hh : s'.height = s.height) :
    maxCount p count s' = maxCount p count s := by
  simp [maxCount, minOffset_congr p count hr hw hh, size_congr p hw hh]

theorem clampA_congr (p : SwipeProps) (count : ℤ) {s s' : SwipeState}
    (hr : s'.rect = s.rect) (hw : s'.width = s.width)
    (hh : s'.height = s.height) (x : ℤ) :
    clampA p count s' x = clampA p count s x := by
  simp [clampA, maxCount_congr p count hr hw hh]

theorem getTargetActive_norm (p : SwipeProps) (count : ℤ) (s : SwipeState)
    (pace : ℤ) :
    getTargetActive p count s pace =
      if pace = 0 then s.active else clampA p count s (s.active + pace) := by
  by_cases h : pace = 0 <;> simp [getTargetActive, clampA, range, h]

theorem getTargetActive_congr (p : SwipeProps) (count : ℤ)
    {s s' : SwipeState} (ha : s'.active = s.active) (hr : s'.rect = s.rect)
    (hw : s'.width = s.width) (hh : s'.height = s.height) (pace : ℤ) :
    getTargetActive p count s' pace = getTargetActive p count s pace := by
  rw [getTargetActive_norm, getTargetActive_norm, ha,
    clampA_congr p count hr hw hh]

theorem move_rect (p : SwipeProps) (count : ℤ) (s : SwipeState)
    (args : MoveArgs) : (move p count s args).1.rect = s.rect := by
  simp only [move, setChildOffset]
  split_ifs <;> rfl

theorem move_width (p : SwipeProps) (count : ℤ) (s : SwipeState)
    (args : MoveArgs) : (move p count s args).1.width = s.width := by
  simp only [move, setChildOffset]
  split_ifs <;> rfl

theorem move_height (p : SwipeProps) (count : ℤ) (s : SwipeState)
    (args : MoveArgs) : (move p count s args).1.height = s.height := by
  simp only [move, setChildOffset]
  split_ifs <;> rfl

theorem move_swiping (p : SwipeProps) (count : ℤ) (s : SwipeState)
    (args : MoveArgs) : (move p count s args).1.swiping = s.swiping := by
  simp only [move, setChildOffset]
  split_ifs <;> rfl

theorem move_active (p : SwipeProps) (count : ℤ) (s : SwipeState)
    (args : MoveArgs) :
    (move p count s args).1.active =
      if 1 < count then getTargetActive p count s args.pace else s.active := by
  by_cases hc : count ≤ 1
  · rw [if_neg (by omega)]
    simp [move, hc]
  · rw [if_pos (by omega)]
    simp only [move, if_neg hc, setChildOffset]
    split_ifs <;> rfl

theorem move_offset (p : SwipeProps) (count : ℤ) (s : SwipeState)
    (args : MoveArgs) :
    (move p count s args).1.offset =
      if 1 < count then
        getTargetOffset p count s (getTargetActive p count s args.pace)
          args.offset
      else s.offset := by
  by_cases hc : count ≤ 1
  · rw [if_neg (by omega)]
    simp [move, hc]
  · rw [if_pos (by omega)]
    simp only [move, if_neg hc, setChildOffset]
    split_ifs <;> rfl

theorem move_events (p : SwipeProps) (count : ℤ) (s : SwipeState)
    (args : MoveArgs) :
    (move p count s args).2 =
      if 1 < count ∧ args.emitChange = true ∧
          getTargetActive p count s args.pace ≠ s.active then
        [Int.tmod (getTargetActive p count s args.pace + count) count]
      else [] := by
  by_cases hc : count ≤ 1
  · rw [if_neg (by omega)]
    simp [move, hc]
  · simp only [move, if_neg hc, setChildOffset, activeIndicator]
    split_ifs with h1 h2 h3 <;> first
      | rfl
      | (exfalso; omega)
      | simp_all

theorem correctPosition_events (p : SwipeProps) (count : ℤ)
    (s : SwipeState) : (correctPosition p count s).2 = [] := by
  simp only [correctPosition]
  split_ifs <;> simp [move_events]

theorem correctPosition_rect (p : SwipeProps) (count : ℤ) (s : SwipeState) :
    (correctPosition p count s).1.rect = s.rect := by
  simp only [correctPosition]
  split_ifs <;> simp [move_rect]

theorem correctPosition_width (p : SwipeProps) (count : ℤ)
    (s : SwipeState) : (correctPosition p count s).1.width = s.width := by
  simp only [correctPosition]
  split_ifs <;> simp [move_width]

theorem correctPosition_height (p : SwipeProps) (count : ℤ)
    (s : SwipeState) : (correctPosition p count s).1.height = s.height := by
  simp only [correctPosition]
  split_ifs <;> simp [move_height]

theorem correctPosition_swiping (p : SwipeProps) (count : ℤ)
    (s : SwipeState) : (correctPosition p count s).1.swiping = true := by
  simp only [correctPosition]
  split_ifs <;> simp [move_swiping]

theorem move_active_pace (p : SwipeProps) (count : ℤ) (s : SwipeState)
    (pace : ℤ) (off : ℚ) (e : Bool) (hc : 1 < count) :
    (move p count s ⟨pace, off, e⟩).1.active =
      if pace = 0 then s.active else clampA p count s (s.active + pace) := by
  rw [move_active, if_pos hc]
  show getTargetActive p count s pace = _
  rw [getTargetActive_norm]

theorem move_events_pace (p : SwipeProps) (count : ℤ) (s : SwipeState)
    (pace : ℤ) (off : ℚ) (e : Bool) (hc : 1 < count) :
    (move p count s ⟨pace, off, e⟩).2 =
      if e = true ∧
          (if pace = 0 then s.active else clampA p count s (s.active + pace))
            ≠ s.active then
        [Int.tmod
          ((if pace = 0 then s.active
            else clampA p count s (s.active + pace)) + count) count]
      else [] := by
  rw [move_events]
  show (if 1 < count ∧ e = true ∧ getTargetActive p count s pace ≠ s.active
      then [Int.tmod (getTargetActive p count s pace + count) count]
      else []) = _
  rw [getTargetActive_norm]
  by_cases h : e = true ∧
      (if pace = 0 then s.active else clampA p count s (s.active + pace))
        ≠ s.active
  · rw [if_pos ⟨hc, h.1, h.2⟩, if_pos h]
  · rw [if_neg (by tauto), if_neg h]

theorem correctPosition_active (p : SwipeProps) (count : ℤ)
    (s : SwipeState) (hc : 1 < count) :
    (correctPosition p count s).1.active =
      if s.active ≤ -1 then clampA p count s (s.active + count)
      else if count ≤ s.active then clampA p count s (s.active - count)
      else s.active := by
  simp only [correctPosition]
  split_ifs with h1 h2
  · rw [move_active_pace p count _ _ _ _ hc]
    show (if count = 0 then s.active
        else clampA p count { s with swiping := true } (s.active + count)) = _
    rw [if_neg (by omega)]
    rfl
  · rw [move_active_pace p count _ _ _ _ hc]
    show (if -count = 0 then s.active
        else clampA p count { s with swiping := true } (s.active + -count)) =
      _
    rw [if_neg (by omega)]
    rfl
  · rfl

theorem swipeTo_unfold (p : SwipeProps) (count : ℤ) (s : SwipeState)
    (i : ℤ) :
    swipeTo p count s i false =
      ((move p count { (correctPosition p count s).1 with swiping := false }
          ⟨swipeToTarget p count (correctPosition p count s).1.active i -
            (correctPosition p count s).1.active, 0, true⟩).1,
       (correctPosition p count s).2 ++
         (move p count { (correctPosition p count s).1 with swiping := false }
           ⟨swipeToTarget p count (correctPosition p count s).1.active i -
             (correctPosition p count s).1.active, 0, true⟩).2) := by
  simp [swipeTo]

theorem swipeTo_rect (p : SwipeProps) (count : ℤ) (s : SwipeState) (i : ℤ) :
    (swipeTo p count s i false).1.rect = s.rect := by
  rw [swipeTo_unfold]
  show (move _ _ _ _).1.rect = _
  rw [move_rect]
  exact correctPosition_rect p count s

theorem swipeTo_width (p : SwipeProps) (count : ℤ) (s : SwipeState)
    (i : ℤ) : (swipeTo p count s i false).1.width = s.width := by
  rw [swipeTo_unfold]
  show (move _ _ _ _).1.width = _
  rw [move_width]
  exact correctPosition_width p count s

theorem swipeTo_height (p : SwipeProps) (count : ℤ) (s : SwipeState)
    (i : ℤ) : (swipeTo p count s i false).1.height = s.height := by
  rw [swipeTo_unfold]
  show (move _ _ _ _).1.height = _
  rw [move_height]
  exact correctPosition_height p count s

theorem swipeTo_active_eq (p : SwipeProps) (count : ℤ) (s : SwipeState)
    (i : ℤ) (hc : 1 < count) :
    (swipeTo p count s i false).1.active =
      (if swipeToTarget p count (correctPosition p count s).1.active i =
          (correctPosition p count s).1.active
       then (correctPosition p count s).1.active
       else clampA p count s
         (swipeToTarget p count (correctPosition p count s).1.active i)) := by
  rw [swipeTo_unfold]
  show (move p count { (correctPosition p count s).1 with swiping := false }
      ⟨swipeToTarget p count (correctPosition p count s).1.active i -
        (correctPosition p count s).1.active, 0, true⟩).1.active = _
  rw [move_active_pace p count _ _ _ _ hc]
  show (if swipeToTarget p count (correctPosition p count s).1.active i -
        (correctPosition p count s).1.active = 0
      then (correctPosition p count s).1.active
      else clampA p count
        { (correctPosition p count s).1 with swiping := false }
        ((correctPosition p count s).1.active +
          (swipeToTarget p count (correctPosition p count s).1.active i -
            (correctPosition p count s).1.active))) = _
  by_cases h : swipeToTarget p count (correctPosition p count s).1.active i =
      (correctPosition p count s).1.active
  · rw [if_pos (by omega), if_pos h]
  · rw [if_neg (by omega), if_neg h,
      show (correctPosition p count s).1.active +
          (swipeToTarget p count (correctPosition p count s).1.active i -
            (correctPosition p count s).1.active) =
          swipeToTarget p count (correctPosition p count s).1.active i from
        by omega]
    exact clampA_congr p count (correctPosition_rect p count s)
      (correctPosition_width p count s) (correctPosition_height p count s) _

theorem swipeTo_events_eq (p : SwipeProps) (count : ℤ) (s : SwipeState)
    (i : ℤ) (hc : 1 < count) :
    (swipeTo p count s i false).2 =
      (if (if swipeToTarget p count (correctPosition p count s).1.active i =
              (correctPosition p count s).1.active
           then (correctPosition p count s).1.active
           else clampA p count s
             (swipeToTarget p count (correctPosition p count s).1.active i))
          = (correctPosition p count s).1.active
       then []
       else [Int.tmod
         ((if swipeToTarget p count (correctPosition p count s).1.active i =
              (correctPosition p count s).1.active
           then (correctPosition p count s).1.active
           else clampA p count s
             (swipeToTarget p count (correctPosition p count s).1.active i))
           + count) count]) := by
  rw [swipeTo_unfold]
  show (correctPosition p count s).2 ++
    (move p count { (correctPosition p count s).1 with swiping := false }
      ⟨swipeToTarget p count (correctPosition p count s).1.active i -
        (correctPosition p count s).1.active, 0, true⟩).2 = _
  rw [correctPosition_events, List.nil_append,
    move_events_pace p count _ _ _ _ hc]
  have hG : (if swipeToTarget p count (correctPosition p count s).1.active i
          - (correctPosition p count s).1.active = 0
        then ({ (correctPosition p count s).1 with
          swiping := false } : SwipeState).active
        else clampA p count
          ({ (correctPosition p count s).1 with
            swiping := false } : SwipeState)
          (({ (correctPosition p count s).1 with
            swiping := false } : SwipeState).active +
            (swipeToTarget p count (correctPosition p count s).1.active i -
              (correctPosition p count s).1.active))) =
      (if swipeToTarget p count (correctPosition p count s).1.active i =
          (correctPosition p count s).1.active
       then (correctPosition p count s).1.active
       else clampA p count s
         (swipeToTarget p count (correctPosition p count s).1.active i)) := by
    show (if swipeToTarget p count (correctPosition p count s).1.active i -
          (correctPosition p count s).1.active = 0
        then (correctPosition p count s).1.active
        else clampA p count
          ({ (correctPosition p count s).1 with
            swiping := false } : SwipeState)
          ((correctPosition p count s).1.active +
            (swipeToTarget p count (correctPosition p count s).1.active i -
              (correctPosition p count s).1.active))) = _
    by_cases h : swipeToTarget p count (correctPosition p count s).1.active i
        = (correctPosition p count s).1.active
    · rw [if_pos (by omega), if_pos h]
    · rw [if_neg (by omega), if_neg h,
        show (correctPosition p count s).1.active +
            (swipeToTarget p count (correctPosition p count s).1.active i -
              (correctPosition p count s).1.active) =
            swipeToTarget p count (correctPosition p count s).1.active i from
          by omega]
      exact clampA_congr p count (correctPosition_rect p count s)
        (correctPosition_width p count s)
        (correctPosition_height p count s) _
  rw [hG]
  by_cases h2 : (if swipeToTarget p count (correctPosition p count s).1.active
        i = (correctPosition p count s).1.active
      then (correctPosition p count s).1.active
      else clampA p count s
        (swipeToTarget p count (correctPosition p count s).1.active i))
      = (correctPosition p count s).1.active
  · rw [if_pos h2, if_neg]
    simp only [not_and]
    intro _
    exact fun hne => hne h2
  · rw [if_neg h2, if_pos ⟨rfl, h2⟩]

/-- C1: the position resolver for a requested pace: for every state, a zero
pace returns the current active index unchanged; with loop mode on it
returns active + pace clamped into [-1, count]; otherwise it returns
active + pace clamped into [0, maxPace] where maxPace is the ceiling of
the absolute minimal offset divided by the main-axis size. -/
theorem c1_getTargetActive_spec (p : SwipeProps) (count : ℤ)
    (s : SwipeState) (pace : ℤ) :
    getTargetActive p count s pace =
      if pace = 0 then s.active
      else if p.loop = true then min (max (s.active + pace) (-1)) count
      else min (max (s.active + pace) 0)
        ⌈|minOffset p count s| / size p s⌉ := by
  rw [getTargetActive_norm]
  by_cases h : pace = 0
  · simp [h]
  · by_cases hl : p.loop = true <;> simp [h, hl, clampA, maxCount]

/-- C3: in a loop configuration with more than one panel, whenever the
internal active index lies in the excursion range [-1, count], the
externally observed activeIndicator lies in [0, count) and equals the
mathematical (Euclidean) modulo of active by count. -/
theorem c3_activeIndicator_range (p : SwipeProps) (count : ℤ)
    (s : SwipeState) (hl : p.loop = true) (hc : 1 < count)
    (h1 : -1 ≤ s.active) (h2 : s.active ≤ count) :
    0 ≤ activeIndicator count s ∧ activeIndicator count s < count ∧
      activeIndicator count s = s.active % count := by
  rw [activeIndicator, tmod_eq_emod_of_nonneg (by omega) (by omega)]
  refine ⟨Int.emod_nonneg _ (by omega), Int.emod_lt_of_pos _ (by omega), ?_⟩
  rw [show s.active + count = s.active + count * 1 by ring]
  exact Int.add_mul_emod_self_left s.active count 1

/-- Witness for C3 at a concrete input: loop mode, 3 panels, internal
active index -1. -/
theorem c3_witness :
    pLoop.loop = true ∧ (1 : ℤ) < 3 ∧
      (-1 : ℤ) ≤ ({ sBase with active := -1 } : SwipeState).active ∧
      ({ sBase with active := -1 } : SwipeState).active ≤ 3 ∧
      (0 ≤ activeIndicator 3 { sBase with active := -1 } ∧
        activeIndicator 3 { sBase with active := -1 } < 3 ∧
        activeIndicator 3 { sBase with active := -1 } =
          ({ sBase with active := -1 } : SwipeState).active % 3) :=
  ⟨rfl, by decide, by decide, by decide,
    c3_activeIndicator_range pLoop 3 { sBase with active := -1 } rfl
      (by decide) (by decide) (by decide)⟩

/-- C5: with at most one panel, any move request, whatever its pace, extra
offset and notification flag, is a complete no-op: the state (including
active, offset and every panel offset) is returned unchanged and no change
notification is emitted. -/
theorem c5_move_noop (p : SwipeProps) (count : ℤ) (s : SwipeState)
    (args : MoveArgs) (hc : count ≤ 1) :
    move p count s args = (s, []) := by
  simp [move, hc]

/-- Witness for C5 at a concrete input: one panel, a pace-2 move request
with notification enabled is a no-op. -/
theorem c5_witness :
    (1 : ℤ) ≤ 1 ∧ move pLoop 1 sBase ⟨2, 0, true⟩ = (sBase, []) :=
  ⟨by decide, c5_move_noop pLoop 1 sBase ⟨2, 0, true⟩ (by decide)⟩

/-- C10: when panels exist, initialization stores exactly
min (count - 1, requested) as the active index (so a negative requested
index is stored unchanged), sets swiping, and resets every panel visual
offset to 0. -/
theorem c10_initState_clamp (p : SwipeProps) (count : ℤ) (s : SwipeState)
    (rect : ℚ × ℚ) (requested : ℤ) (hc : 0 < count) :
    (initState p count s rect requested).active =
      min (count - 1) requested ∧
    (initState p count s rect requested).swiping = true ∧
    (initState p count s rect requested).childOffsets = (fun _ => 0) := by
  refine ⟨?_, rfl, rfl⟩
  show (if count ≠ 0 then min (count - 1) requested else requested) = _
  rw [if_pos (by omega)]

/-- Witness for C10 at a concrete input: 3 panels, requested initial index
-2 is stored unchanged since min 2 (-2) = -2. -/
theorem c10_witness :
    (0 : ℤ) < 3 ∧
      ((initState pFlat 3 sBase (300, 100) (-2)).active =
          min ((3 : ℤ) - 1) (-2) ∧
        (initState pFlat 3 sBase (300, 100) (-2)).swiping = true ∧
        (initState pFlat 3 sBase (300, 100) (-2)).childOffsets =
          (fun _ => 0)) :=
  ⟨by decide, c10_initState_clamp pFlat 3 sBase (300, 100) (-2) (by decide)⟩

/-- C9: in loop mode with more than one panel and the active index inside
the excursion range [-1, count], correctPosition always sets swiping,
leaves the externally observed activeIndicator unchanged, lands the active
index inside [0, count), and does so by moving an index at or below -1
forward by count panels and an index at or above count backward by count
panels (and leaving every other index unchanged). -/
theorem c9_correctPosition_spec (p : SwipeProps) (count : ℤ)
    (s : SwipeState) (hl : p.loop = true) (hc : 1 < count)
    (h1 : -1 ≤ s.active) (h2 : s.active ≤ count) :
    (correctPosition p count s).1.swiping = true ∧
    activeIndicator count (correctPosition p count s).1 =
      activeIndicator count s ∧
    0 ≤ (correctPosition p count s).1.active ∧
    (correctPosition p count s).1.active < count ∧
    (correctPosition p count s).1.active =
      (if s.active ≤ -1 then s.active + count
       else if count ≤ s.active then s.active - count
       else s.active) := by
  have key : (correctPosition p count s).1.active =
      (if s.active ≤ -1 then s.active + count
       else if count ≤ s.active then s.active - count
       else s.active) := by
    rw [correctPosition_active p count s hc]
    simp only [clampA, hl, if_true]
    split_ifs <;> omega
  have hrange : 0 ≤ (correctPosition p count s).1.active ∧
      (correctPosition p count s).1.active < count := by
    rw [key]
    split_ifs <;> omega
  refine ⟨correctPosition_swiping p count s, ?_, hrange.1, hrange.2, key⟩
  rw [activeIndicator, activeIndicator, key]
  split_ifs with ha hb
  · rw [tmod_eq_emod_of_nonneg (by omega) (by omega),
      tmod_eq_emod_of_nonneg (by omega) (by omega),
      show s.active + count + count = s.active + count + count * 1 by ring,
      Int.add_mul_emod_self_left]
  · rw [tmod_eq_emod_of_nonneg (by omega) (by omega),
      tmod_eq_emod_of_nonneg (by omega) (by omega),
      show s.active - count + count = s.active + count + count * (-1) by
        ring,
      Int.add_mul_emod_self_left]
  · rfl

/-- Witness for C9 at a concrete input: loop mode, 3 panels, internal
active index 3 (= count, the right overscan slot). -/
theorem c9_witness :
    pLoop.loop = true ∧ (1 : ℤ) < 3 ∧
      (-1 : ℤ) ≤ ({ sBase with active := 3 } : SwipeState).active ∧
      ({ sBase with active := 3 } : SwipeState).active ≤ 3 ∧
      ((correctPosition pLoop 3 { sBase with active := 3 }).1.swiping = true ∧
        activeIndicator 3 (correctPosition pLoop 3
          { sBase with active := 3 }).1 =
          activeIndicator 3 { sBase with active := 3 } ∧
        0 ≤ (correctPosition pLoop 3 { sBase with active := 3 }).1.active ∧
        (correctPosition pLoop 3 { sBase with active := 3 }).1.active < 3 ∧
        (correctPosition pLoop 3 { sBase with active := 3 }).1.active =
          (if ({ sBase with active := 3 } : SwipeState).active ≤ -1
           then ({ sBase with active := 3 } : SwipeState).active + 3
           else if (3 : ℤ) ≤ ({ sBase with active := 3 } : SwipeState).active
           then ({ sBase with active := 3 } : SwipeState).active - 3
           else ({ sBase with active := 3 } : SwipeState).active)) :=
  ⟨rfl, by decide, by decide, by decide,
    c9_correctPosition_spec pLoop 3 { sBase with active := 3 } rfl
      (by decide) (by decide) (by decide)⟩

/-- C2 (amended): in a non-loop configuration with more than one panel and
a container not larger than the track (minOffset at most 0), the offset
stored by any move, with any pace and any extra drag offset, lies within
[minOffset, 0]. -/
theorem c2_offset_bounds (p : SwipeProps) (count : ℤ) (s : SwipeState)
    (args : MoveArgs) (hl : p.loop = false) (hc : 1 < count)
    (hm : minOffset p count s ≤ 0) :
    minOffset p count s ≤ (move p count s args).1.offset ∧
    (move p count s args).1.offset ≤ 0 := by
  rw [move_offset, if_pos hc]
  simp only [getTargetOffset, hl, Bool.false_eq_true, if_false, range]
  exact ⟨le_min (le_max_right _ _) hm, min_le_right _ _⟩

/-- Witness for C2 at a concrete input: non-loop, 2 panels of size 100 in
a 100-pixel container, a pace-1 move with a 30-pixel drag offset. -/
theorem c2_witness :
    pFlat.loop = false ∧ (1 : ℤ) < 2 ∧ minOffset pFlat 2 sBase ≤ 0 ∧
      (minOffset pFlat 2 sBase ≤
          (move pFlat 2 sBase ⟨1, 30, true⟩).1.offset ∧
        (move pFlat 2 sBase ⟨1, 30, true⟩).1.offset ≤ 0) :=
  ⟨rfl, by decide, by norm_num [minOffset, size, pFlat, sBase],
    c2_offset_bounds pFlat 2 sBase ⟨1, 30, true⟩ rfl (by decide)
      (by norm_num [minOffset, size, pFlat, sBase])⟩

/-- Counterexample for C2 as stated: with a 1000-pixel container and two
100-pixel panels (minOffset = 800 > 0), a zero-pace move stores offset 0,
which does not lie within [minOffset, 0]. -/
theorem c2_counterexample :
    ¬(minOffset pFlat 2 sWide ≤ (move pFlat 2 sWide ⟨0, 0, false⟩).1.offset ∧
      (move pFlat 2 sWide ⟨0, 0, false⟩).1.offset ≤ 0) := by
  have hoff : (move pFlat 2 sWide ⟨0, 0, false⟩).1.offset = 0 := by
    rw [move_offset, if_pos (by decide)]
    show getTargetOffset pFlat 2 sWide sWide.active 0 = 0
    simp only [getTargetOffset, pFlat, minOffset, size, sWide, range]
    norm_num [min_def, max_def]
  have hmin : minOffset pFlat 2 sWide = 800 := by
    simp only [minOffset, size, pFlat, sWide]
    norm_num
  rw [hoff, hmin]
  norm_num

/-- C6: in loop mode with more than one panel, after every move: when the
stored target offset differs from minOffset, panel 0 ends with visual
offset trackSize if the target offset is below minOffset and 0 otherwise
(and keeps its previous offset when equal to minOffset); symmetrically,
when the target offset differs from 0, the last panel ends with visual
offset -trackSize if the target offset is above 0 and 0 otherwise (and
keeps its previous offset when equal to 0). -/
theorem c6_loop_edge_compensation (p : SwipeProps) (count : ℤ)
    (s : SwipeState) (args : MoveArgs) (hl : p.loop = true)
    (hc : 1 < count) :
    (move p count s args).1.childOffsets 0 =
      (if (move p count s args).1.offset ≠ minOffset p count s then
        (if (move p count s args).1.offset < minOffset p count s
         then trackSize p count s else 0)
       else s.childOffsets 0) ∧
    (move p count s args).1.childOffsets (count - 1) =
      (if (move p count s args).1.offset ≠ 0 then
        (if 0 < (move p count s args).1.offset
         then -trackSize p count s else 0)
       else s.childOffsets (count - 1)) := by
  have hc' : ¬ count ≤ 1 := by omega
  have hne0 : ¬ ((0 : ℤ) = count - 1) := by omega
  have hne1 : ¬ (count - 1 = (0 : ℤ)) := by omega
  have hoff := move_offset p count s args
  rw [if_pos hc] at hoff
  rw [hoff]
  constructor
  · simp only [move, if_neg hc', hl, if_true, setChildOffset]
    split_ifs <;> simp_all
  · simp only [move, if_neg hc', hl, if_true, setChildOffset]
    split_ifs <;> simp_all

/-- Witness for C6 at a concrete input: loop mode, 2 panels of size 100,
a pace-1 move from panel 0 (target offset -100 = minOffset, so the last
panel is repositioned to offset 0 and panel 0 keeps its offset). -/
theorem c6_witness :
    pLoop.loop = true ∧ (1 : ℤ) < 2 ∧
      ((move pLoop 2 sBase ⟨1, 0, true⟩).1.childOffsets 0 =
        (if (move pLoop 2 sBase ⟨1, 0, true⟩).1.offset ≠
            minOffset pLoop 2 sBase then
          (if (move pLoop 2 sBase ⟨1, 0, true⟩).1.offset <
              minOffset pLoop 2 sBase
           then trackSize pLoop 2 sBase else 0)
         else sBase.childOffsets 0) ∧
      (move pLoop 2 sBase ⟨1, 0, true⟩).1.childOffsets (2 - 1) =
        (if (move pLoop 2 sBase ⟨1, 0, true⟩).1.offset ≠ 0 then
          (if 0 < (move pLoop 2 sBase ⟨1, 0, true⟩).1.offset
           then -trackSize pLoop 2 sBase else 0)
         else sBase.childOffsets (2 - 1))) :=
  ⟨rfl, by decide, c6_loop_edge_compensation pLoop 2 sBase ⟨1, 0, true⟩ rfl
    (by decide)⟩

/-- C4: on touch end (touchable, mid-swipe), the gesture commits a pace
change with notification exactly when the gesture direction matches the
orientation and either the absolute velocity delta/elapsed exceeds 0.25 or
the absolute delta exceeds half the main-axis size; the committed pace is,
in loop mode, -1 or 1 by the sign of delta when the absolute touch offset
is positive and 0 otherwise, and in non-loop mode minus the sign of delta
times the ceiling of absolute delta over the main-axis size; a
non-committing gesture with nonzero delta issues a zero-pace snap-back
move without notification. -/
theorem c4_onTouchEnd_commit (p : SwipeProps) (count : ℤ) (s : SwipeState)
    (cd : Bool) (delta touchOffset elapsed : ℚ) (hs : s.swiping = true) :
    onTouchEnd p count s true cd delta touchOffset elapsed =
      (if cd = true ∧
          (|delta / elapsed| > 1 / 4 ∨ |delta| > size p s / 2) then
        ({ (move p count s
            ⟨(if p.loop = true then
                (if 0 < touchOffset then (if 0 < delta then -1 else 1)
                 else 0)
              else
                -(if 0 < delta then 1 else if delta < 0 then -1 else 0) *
                  ⌈|delta| / size p s⌉), 0, true⟩).1 with swiping := false },
         (move p count s
            ⟨(if p.loop = true then
                (if 0 < touchOffset then (if 0 < delta then -1 else 1)
                 else 0)
              else
                -(if 0 < delta then 1 else if delta < 0 then -1 else 0) *
                  ⌈|delta| / size p s⌉), 0, true⟩).2)
       else if delta ≠ 0 then
        ({ (move p count s ⟨0, 0, false⟩).1 with swiping := false },
         (move p count s ⟨0, 0, false⟩).2)
       else ({ s with swiping := false }, [])) := by
  have hpace :
      -(if 0 < delta then ⌈delta / size p s⌉ else ⌊delta / size p s⌋) =
      -(if 0 < delta then 1 else if delta < 0 then -1 else 0) *
        ⌈|delta| / size p s⌉ := by
    rcases lt_trichotomy 0 delta with hd | hd | hd
    · rw [if_pos hd, if_pos hd, abs_of_pos hd]
      ring
    · rw [if_neg (by rw [← hd]; exact lt_irrefl 0),
        if_neg (by rw [← hd]; exact lt_irrefl 0),
        if_neg (by rw [← hd]; exact lt_irrefl 0), ← hd]
      simp
    · rw [if_neg (not_lt.mpr hd.le), if_neg (not_lt.mpr hd.le), if_pos hd,
        abs_of_neg hd, neg_div, Int.ceil_neg]
      ring
  rw [onTouchEnd, if_neg (by simp [hs])]
  simp only []
  rw [hpace]
  by_cases h1 : (|delta / elapsed| > 1 / 4 ∨ |delta| > size p s / 2)
  · by_cases h2 : cd = true
    · have hL : (|delta / elapsed| > 1 / 4 ∨ |delta| > size p s / 2) ∧
          cd = true := ⟨h1, h2⟩
      have hR : cd = true ∧
          (|delta / elapsed| > 1 / 4 ∨ |delta| > size p s / 2) := ⟨h2, h1⟩
      rw [if_pos hL, if_pos hR]
    · have hL : ¬((|delta / elapsed| > 1 / 4 ∨ |delta| > size p s / 2) ∧
          cd = true) := fun h => h2 h.2
      have hR : ¬(cd = true ∧
          (|delta / elapsed| > 1 / 4 ∨ |delta| > size p s / 2)) :=
        fun h => h2 h.1
      rw [if_neg hL, if_neg hR]
      by_cases hd0 : delta ≠ 0
      · rw [if_pos hd0, if_pos hd0]
      · rw [if_neg hd0, if_neg hd0]
  · have hL : ¬((|delta / elapsed| > 1 / 4 ∨ |delta| > size p s / 2) ∧
        cd = true) := fun h => h1 h.1
    have hR : ¬(cd = true ∧
        (|delta / elapsed| > 1 / 4 ∨ |delta| > size p s / 2)) :=
      fun h => h1 h.2
    rw [if_neg hL, if_neg hR]
    by_cases hd0 : delta ≠ 0
    · rw [if_pos hd0, if_pos hd0]
    · rw [if_neg hd0, if_neg hd0]

/-- Witness for C4 at a concrete input: loop mode, 2 panels, mid-swipe
state, a leftward flick (delta -80 over 100 ms). -/
theorem c4_witness :
    ({ sBase with swiping := true } : SwipeState).swiping = true ∧
      onTouchEnd pLoop 2 { sBase with swiping := true } true true (-80) 80
          100 =
        (if (true = true) ∧
            (|(-80 : ℚ) / 100| > 1 / 4 ∨
              |(-80 : ℚ)| > size pLoop { sBase with swiping := true } / 2)
         then
          ({ (move pLoop 2 { sBase with swiping := true }
              ⟨(if pLoop.loop = true then
                  (if (0 : ℚ) < 80 then (if (0 : ℚ) < -80 then -1 else 1)
                   else 0)
                else
                  -(if (0 : ℚ) < -80 then 1
                    else if (-80 : ℚ) < 0 then -1 else 0) *
                    ⌈|(-80 : ℚ)| /
                      size pLoop { sBase with swiping := true }⌉), 0,
                true⟩).1 with swiping := false },
           (move pLoop 2 { sBase with swiping := true }
              ⟨(if pLoop.loop = true then
                  (if (0 : ℚ) < 80 then (if (0 : ℚ) < -80 then -1 else 1)
                   else 0)
                else
                  -(if (0 : ℚ) < -80 then 1
                    else if (-80 : ℚ) < 0 then -1 else 0) *
                    ⌈|(-80 : ℚ)| /
                      size pLoop { sBase with swiping := true }⌉), 0,
                true⟩).2)
         else if (-80 : ℚ) ≠ 0 then
          ({ (move pLoop 2 { sBase with swiping := true } ⟨0, 0, false⟩).1
              with swiping := false },
           (move pLoop 2 { sBase with swiping := true } ⟨0, 0, false⟩).2)
         else ({ { sBase with swiping := true } with swiping := false },
           [])) :=
  ⟨rfl, c4_onTouchEnd_commit pLoop 2 { sBase with swiping := true } true
    (-80) 80 100 rfl⟩

/-- C7 (amended): with more than one panel, swipeTo never rejects an
index: outside the loop-mode special case index = count, the resolved
target index is the JavaScript (truncated) remainder of the index by the
count — which lies in [0, count) for a nonnegative index — and the call
is exactly a move by pace = targetIndex - active (after position
correction, with notification enabled). -/
theorem c7_swipeTo_normalization (p : SwipeProps) (count : ℤ)
    (s : SwipeState) (i : ℤ) (hc : 1 < count)
    (hx : ¬(p.loop = true ∧ i = count)) (hi : 0 ≤ i) :
    swipeToTarget p count (correctPosition p count s).1.active i =
      Int.tmod i count ∧
    0 ≤ Int.tmod i count ∧ Int.tmod i count < count ∧
    swipeTo p count s i false =
      move p count { (correctPosition p count s).1 with swiping := false }
        ⟨Int.tmod i count - (correctPosition p count s).1.active, 0,
          true⟩ := by
  have ht : swipeToTarget p count (correctPosition p count s).1.active i =
      Int.tmod i count := by
    simp only [swipeToTarget, if_neg hx]
  have hb := tmod_bounds_of_nonneg hi (show (0 : ℤ) < count by omega)
  refine ⟨ht, hb.1, hb.2, ?_⟩
  rw [swipeTo_unfold, correctPosition_events, ht, List.nil_append]

/-- Witness for C7 at a concrete input: non-loop, 2 panels, swipeTo 5
resolves target 5 tmod 2 = 1. -/
theorem c7_witness :
    (1 : ℤ) < 2 ∧ ¬(pFlat.loop = true ∧ (5 : ℤ) = 2) ∧ (0 : ℤ) ≤ 5 ∧
      (swipeToTarget pFlat 2 (correctPosition pFlat 2 sBase).1.active 5 =
          Int.tmod 5 2 ∧
        0 ≤ Int.tmod 5 2 ∧ Int.tmod 5 2 < 2 ∧
        swipeTo pFlat 2 sBase 5 false =
          move pFlat 2
            { (correctPosition pFlat 2 sBase).1 with swiping := false }
            ⟨Int.tmod 5 2 - (correctPosition pFlat 2 sBase).1.active, 0,
              true⟩) :=
  ⟨by decide, by decide, by decide,
    c7_swipeTo_normalization pFlat 2 sBase 5 (by decide) (by decide)
      (by decide)⟩

/-- Counterexample for C7 as stated: with 2 panels and requested index -1
(not the loop special case), the resolved target index is
(-1) tmod 2 = -1, which does not lie in [0, count). -/
theorem c7_counterexample :
    ¬(0 ≤ swipeToTarget pFlat 2 0 (-1) ∧
      swipeToTarget pFlat 2 0 (-1) < 2) := by
  decide

theorem swipeTo_active_cases (p : SwipeProps) (count : ℤ) (s : SwipeState)
    (i : ℤ) (hc : 1 < count) (hi : 0 ≤ i) :
    (p.loop = true ∧ i ≠ count ∧
      (swipeTo p count s i false).1.active = Int.tmod i count) ∨
    (p.loop = true ∧ i = count ∧
      ((swipeTo p count s i false).1.active = 0 ∨
       (swipeTo p count s i false).1.active = count)) ∨
    (p.loop = false ∧
      ((swipeTo p count s i false).1.active = Int.tmod i count ∨
       (swipeTo p count s i false).1.active =
         min (max (Int.tmod i count) 0) (maxCount p count s))) := by
  have ha1 := swipeTo_active_eq p count s i hc
  have hb := tmod_bounds_of_nonneg hi (show (0 : ℤ) < count by omega)
  by_cases hl : p.loop = true
  · by_cases hic : i = count
    · refine Or.inr (Or.inl ⟨hl, hic, ?_⟩)
      rw [ha1]
      have ht : swipeToTarget p count (correctPosition p count s).1.active i
          = (if (correctPosition p count s).1.active = 0 then 0 else count)
          := by
        simp [swipeToTarget, hl, hic]
      rw [ht]
      by_cases h0 : (correctPosition p count s).1.active = 0
      · rw [if_pos h0, h0]
        left
        simp
      · rw [if_neg h0]
        by_cases he : (count : ℤ) = (correctPosition p count s).1.active
        · right
          rw [if_pos he, ← he]
        · right
          rw [if_neg he]
          simp only [clampA, hl, if_true]
          omega
    · refine Or.inl ⟨hl, hic, ?_⟩
      rw [ha1]
      have ht : swipeToTarget p count (correctPosition p count s).1.active i
          = Int.tmod i count := by
        simp [swipeToTarget, hic]
      rw [ht]
      by_cases he : Int.tmod i count = (correctPosition p count s).1.active
      · rw [if_pos he, ← he]
      · rw [if_neg he]
        simp only [clampA, hl, if_true]
        omega
  · have hl' : p.loop = false := by
      cases hlb : p.loop
      · rfl
      · exact absurd hlb hl
    refine Or.inr (Or.inr ⟨hl', ?_⟩)
    rw [ha1]
    have ht : swipeToTarget p count (correctPosition p count s).1.active i
        = Int.tmod i count := by
      simp [swipeToTarget, hl']
    rw [ht]
    by_cases he : Int.tmod i count = (correctPosition p count s).1.active
    · left
      rw [if_pos he, ← he]
    · right
      rw [if_neg he]
      simp [clampA, hl']

theorem swipeTo_second_call (p : SwipeProps) (count : ℤ)
    (s r : SwipeState) (i : ℤ) (hc : 1 < count) (hi : 0 ≤ i)
    (hre : r.rect = s.rect) (hwe : r.width = s.width)
    (hhe : r.height = s.height)
    (hD : (p.loop = true ∧ i ≠ count ∧ r.active = Int.tmod i count) ∨
      (p.loop = true ∧ i = count ∧ (r.active = 0 ∨ r.active = count)) ∨
      (p.loop = false ∧ (r.active = Int.tmod i count ∨
        r.active = min (max (Int.tmod i count) 0) (maxCount p count s)))) :
    (swipeTo p count r i false).2 = [] ∧
    (swipeTo p count r i false).1.active =
      (if r.active = count then 0 else r.active) := by
  have ha2 := swipeTo_active_eq p count r i hc
  have hev := swipeTo_events_eq p count r i hc
  have hcp := correctPosition_active p count r hc
  have hcA : ∀ x, clampA p count r x = clampA p count s x :=
    fun x => clampA_congr p count hre hwe hhe x
  have hb := tmod_bounds_of_nonneg hi (show (0 : ℤ) < count by omega)
  rcases hD with ⟨hl, hic, hA⟩ | ⟨hl, hic, hA⟩ | ⟨hl, hA⟩
  · -- loop mode, i different from count, r.active = i tmod count
    have hcp' : (correctPosition p count r).1.active = r.active := by
      rw [hcp, if_neg (by omega), if_neg (by omega)]
    have ht2 : swipeToTarget p count (correctPosition p count r).1.active i
        = Int.tmod i count := by
      simp [swipeToTarget, hic]
    rw [hev, ha2, ht2, hcp', ← hA]
    simp only [eq_self_iff_true, if_true]
    refine ⟨trivial, ?_⟩
    rw [if_neg (by omega)]
  · rcases hA with hA | hA
    · -- loop mode, i = count, r.active = 0
      have hcp' : (correctPosition p count r).1.active = r.active := by
        rw [hcp, if_neg (by omega), if_neg (by omega)]
      have ht2 : swipeToTarget p count
          (correctPosition p count r).1.active i = 0 := by
        rw [hcp', hA]
        simp [swipeToTarget, hl, hic]
      rw [hev, ha2, ht2, hcp', hA]
      simp only [eq_self_iff_true, if_true]
      refine ⟨trivial, ?_⟩
      rw [if_neg (by omega)]
    · -- loop mode, i = count, r.active = count (right overscan slot)
      have hcp' : (correctPosition p count r).1.active = 0 := by
        rw [hcp, if_neg (by omega), if_pos (by omega), hcA, hA]
        simp only [clampA, hl, if_true]
        omega
      have ht2 : swipeToTarget p count
          (correctPosition p count r).1.active i = 0 := by
        rw [hcp']
        simp [swipeToTarget, hl, hic]
      rw [hev, ha2, ht2, hcp', hA]
      simp only [eq_self_iff_true, if_true]
      exact ⟨trivial, trivial⟩
  · -- non-loop mode
    have ht2 : swipeToTarget p count (correctPosition p count r).1.active i
        = Int.tmod i count := by
      simp [swipeToTarget, hl]
    have hclamp : ∀ x, clampA p count r x =
        min (max x 0) (maxCount p count s) := by
      intro x
      rw [hcA]
      simp [clampA, hl]
    rcases hA with hA | hA
    · have hcp' : (correctPosition p count r).1.active = r.active := by
        rw [hcp, if_neg (by omega), if_neg (by omega)]
      rw [hev, ha2, ht2, hcp', ← hA]
      simp only [eq_self_iff_true, if_true]
      refine ⟨trivial, ?_⟩
      rw [if_neg (by omega)]
    · by_cases hneg : r.active ≤ -1
      · have hMv : r.active = maxCount p count s := by omega
        have hcp' : (correctPosition p count r).1.active = r.active := by
          rw [hcp, if_pos hneg, hclamp]
          omega
        have hne2 : ¬(Int.tmod i count = r.active) := by omega
        rw [hev, ha2, ht2, hcp', if_neg hne2, hclamp]
        have hval : min (max (Int.tmod i count) 0) (maxCount p count s) =
            r.active := by omega
        rw [hval]
        simp only [eq_self_iff_true, if_true]
        refine ⟨trivial, ?_⟩
        rw [if_neg (by omega)]
      · have hcp' : (correctPosition p count r).1.active = r.active := by
          rw [hcp, if_neg (by omega), if_neg (by omega)]
        by_cases hTe : Int.tmod i count = r.active
        · rw [hev, ha2, ht2, hcp', if_pos hTe]
          simp only [eq_self_iff_true, if_true]
          refine ⟨trivial, ?_⟩
          rw [if_neg (by omega)]
        · rw [hev, ha2, ht2, hcp', if_neg hTe, hclamp]
          have hval : min (max (Int.tmod i count) 0) (maxCount p count s) =
              r.active := by omega
          rw [hval]
          simp only [eq_self_iff_true, if_true]
          refine ⟨trivial, ?_⟩
          rw [if_neg (by omega)]

theorem swipeTo_roundtrip (p : SwipeProps) (count : ℤ) (s : SwipeState)
    (i : ℤ) (hc : 1 < count) (hi : 0 ≤ i) :
    (swipeTo p count (swipeTo p count s i false).1 i false).2 = [] ∧
    activeIndicator count
        (swipeTo p count (swipeTo p count s i false).1 i false).1 =
      activeIndicator count (swipeTo p count s i false).1 ∧
    (swipeTo p count (swipeTo p count s i false).1 i false).1.active =
      (if (swipeTo p count s i false).1.active = count then 0
       else (swipeTo p count s i false).1.active) := by
  have hD := swipeTo_active_cases p count s i hc hi
  have h2 := swipeTo_second_call p count s (swipeTo p count s i false).1 i
    hc hi (swipeTo_rect p count s i) (swipeTo_width p count s i)
    (swipeTo_height p count s i) hD
  refine ⟨h2.1, ?_, h2.2⟩
  by_cases hCe : (swipeTo p count s i false).1.active = count
  · rw [activeIndicator, activeIndicator, h2.2, if_pos hCe, hCe,
      tmod_eq_emod_of_nonneg (by omega) (by omega),
      tmod_eq_emod_of_nonneg (by omega) (by omega), zero_add,
      Int.emod_self, show count + count = count * 2 by ring]
    exact (Int.mul_emod_right count 2).symm
  · rw [activeIndicator, activeIndicator, h2.2, if_neg hCe]

/-- C8 (amended): a change notification is emitted by a move exactly when
notification is enabled and the active index changes, and it carries the
new normalized active index; live-drag moves (onTouchMove) and zero-pace
snap-back moves emit nothing; and for a nonnegative index i, calling
swipeTo(i) twice in succession emits no notification on the second call
and leaves the normalized activeIndicator unchanged — the internal active
index itself is also unchanged except in the loop-mode case i = count
where the second call renormalizes it from count to 0. -/
theorem c8_change_notification (p : SwipeProps) (count : ℤ)
    (s sm : SwipeState) (args : MoveArgs) (tc cd : Bool) (delta om : ℚ)
    (i : ℤ) (hc : 1 < count) (hi : 0 ≤ i) :
    (move p count sm args).2 =
      (if args.emitChange = true ∧
          getTargetActive p count sm args.pace ≠ sm.active then
        [activeIndicator count (move p count sm args).1]
       else []) ∧
    (onTouchMove p count sm tc cd delta).2 = [] ∧
    (move p count sm ⟨0, om, false⟩).2 = [] ∧
    (swipeTo p count (swipeTo p count s i false).1 i false).2 = [] ∧
    activeIndicator count
        (swipeTo p count (swipeTo p count s i false).1 i false).1 =
      activeIndicator count (swipeTo p count s i false).1 ∧
    (swipeTo p count (swipeTo p count s i false).1 i false).1.active =
      (if (swipeTo p count s i false).1.active = count then 0
       else (swipeTo p count s i false).1.active) := by
  have hrt := swipeTo_roundtrip p count s i hc hi
  have e1 : (move p count sm args).2 =
      (if args.emitChange = true ∧
          getTargetActive p count sm args.pace ≠ sm.active then
        [activeIndicator count (move p count sm args).1]
       else []) := by
    rw [move_events]
    have hact : activeIndicator count (move p count sm args).1 =
        Int.tmod (getTargetActive p count sm args.pace + count) count := by
      rw [activeIndicator, move_active, if_pos hc]
    rw [hact]
    by_cases h : args.emitChange = true ∧
        getTargetActive p count sm args.pace ≠ sm.active
    · rw [if_pos ⟨hc, h.1, h.2⟩, if_pos h]
    · rw [if_neg (by tauto), if_neg h]
  have e2 : (onTouchMove p count sm tc cd delta).2 = [] := by
    simp only [onTouchMove]
    split_ifs <;> simp [move_events]
  have e3 : (move p count sm ⟨0, om, false⟩).2 = [] := by
    rw [move_events]
    rw [if_neg (by simp)]
  exact ⟨e1, e2, e3, hrt.1, hrt.2.1, hrt.2.2⟩

/-- Witness for C8 at a concrete input: loop mode, 3 panels, a pace-1 move
with notification from panel 0, a live drag, a zero-pace snap-back, and a
double swipeTo(1). -/
theorem c8_witness :
    (1 : ℤ) < 3 ∧ (0 : ℤ) ≤ 1 ∧
      ((move pLoop 3 sBase ⟨1, 0, true⟩).2 =
        (if (true : Bool) = true ∧
            getTargetActive pLoop 3 sBase (1 : ℤ) ≠ sBase.active then
          [activeIndicator 3 (move pLoop 3 sBase ⟨1, 0, true⟩).1]
         else []) ∧
      (onTouchMove pLoop 3 sBase true true (-40)).2 = [] ∧
      (move pLoop 3 sBase ⟨0, -40, false⟩).2 = [] ∧
      (swipeTo pLoop 3 (swipeTo pLoop 3 sBase 1 false).1 1 false).2 = [] ∧
      activeIndicator 3
          (swipeTo pLoop 3 (swipeTo pLoop 3 sBase 1 false).1 1 false).1 =
        activeIndicator 3 (swipeTo pLoop 3 sBase 1 false).1 ∧
      (swipeTo pLoop 3 (swipeTo pLoop 3 sBase 1 false).1 1 false).1.active =
        (if (swipeTo pLoop 3 sBase 1 false).1.active = 3 then 0
         else (swipeTo pLoop 3 sBase 1 false).1.active)) :=
  ⟨by decide, by decide,
    c8_change_notification pLoop 3 sBase sBase ⟨1, 0, true⟩ true true (-40)
      (-40) 1 (by decide) (by decide)⟩

/-- Counterexample for C8 as stated: in loop mode with 2 panels starting
at panel 0, calling swipeTo(-1) twice in succession emits a change
notification on the second call as well (payload [1]): the truncated
remainder resolves target -1, the first call parks the internal active
index at -1, and the position correction of the second call moves it to 1
before moving back to -1, an active change with notification enabled. -/
theorem c8_counterexample :
    (swipeTo pLoop 2 (swipeTo pLoop 2 sBase (-1) false).1 (-1) false).2 =
      [1] ∧
    (swipeTo pLoop 2 (swipeTo pLoop 2 sBase (-1) false).1 (-1) false).2 ≠
      [] := by
  decide

end Swipe
